import Mathlib

/-!
# Espresso `JsContext` (src/libespresso/jscontext.cpp)

A shallow embedding of the operations of `JsContext`.  The embedded engine (V8)
and the engine-side codec (`JsEngine`, declared in `espresso.h`) are
collaborators whose code is not part of the file; they are taken as a record of
functions over an abstract engine world `W`, so that every statement below holds
for every behaviour of the engine.

Each operation is a state transformer over a `Machine`: the engine world, the
caller's `jsvalue* output` slot and a chronological trace of the calls the
operation makes.  An operation either returns normally (`Result.ok`) or stops in
a native fault (`Result.fault`).
-/

namespace Espresso

/-! ## Handles -/

/-- A `v8::Local<T>` handle: `none` is the empty handle (`IsEmpty()`). -/
abbrev Local (V : Type) := Option V

/-- A `v8::MaybeLocal<T>`: `none` is the empty result of a failed engine call. -/
abbrev MaybeLocal (V : Type) := Option V

/-- The pointee of a `v8::Persistent<T>*` argument: `none` is an empty persistent. -/
abbrev Persistent (V : Type) := Option V

/-- The test `handle.IsEmpty()`. -/
def IsEmpty {V : Type} (h : Local V) : Bool := h.isNone

/-- The call `maybe.ToLocal(&out)`: the returned flag and the value stored in `out`
(the empty handle when the result is empty). -/
def ToLocal {V : Type} (r : MaybeLocal V) : Bool × Local V := (r.isSome, r)

/-! ## Wire values -/

/-- The wire value `jsvalue`.  Only the fields `type` and `i32` are named by
jscontext.cpp; the remaining fields of the struct are kept as `rest`. -/
structure jsvalue (P : Type) where
  type : Int
  i32 : Int
  rest : P
  deriving DecidableEq, Repr

/-! ## Faults, events and the machine -/

/-- Native faults: the ways an operation can fail to return to its caller. -/
inductive Fault
  /-- `ToLocalChecked()` on an empty `MaybeLocal`: V8 reports a fatal error and
  crashes the process (v8.h: "If this MaybeLocal<> is empty, V8 will crash the
  process"). -/
  | ToLocalCheckedEmpty
  /-- A member call `h->f(..)` through an empty handle. -/
  | emptyHandle
  /-- Use of `context_` after `delete context_` (undefined behaviour). -/
  | contextReleased
  /-- The exception `std::length_error` thrown by the constructor of `std::vector`
  for a length above `max_size()`; nothing in the operation catches it. -/
  | lengthError
  deriving DecidableEq, Repr

/-- The calls an operation makes, with their arguments. -/
inductive Event (V P : Type)
  | lock                                      -- Locker locker(isolate_)
  | unlock                                    -- ~Locker at scope exit
  | derefContext                              -- *context_
  | Enter                                     -- ctx->Enter()
  | Exit                                      -- ctx->Exit()
  | TryCatch                                  -- TryCatch trycatch(isolate_)
  | Reset                                     -- context_->Reset()
  | delete                                    -- delete context_
  | NewFromTwoByte (str : List Nat)
  | NewFromUtf8 (str : String)
  | Compile (source : Local V) (origin : Option (Local V))
  | Run (script : V)
  | Get (obj : V) (key : Local V)
  | Set (obj : V) (key : Local V) (v : Local V)
  | GetPropertyNames (obj : V)
  | Call (f : V) (recv : V) (argc : Int) (argv : List (Local V))
  | AnyFromV8 (value : Local V) (thisArg : Local V)
  | ErrorFromV8
  | StringFromV8 (value : Local V)
  | AnyToV8 (v : jsvalue P) (contextId : Int)
  | ArrayToV8Args (args : jsvalue P) (contextId : Int)
  | setOutputType (t : Int)                   -- output->type = t
  deriving DecidableEq, Repr

namespace Event

variable {V P : Type}

/-- The event is `ctx->Enter()`. -/
def isEnter : Event V P → Bool
  | .Enter => true
  | _ => false

/-- The event is `ctx->Exit()`. -/
def isExit : Event V P → Bool
  | .Exit => true
  | _ => false

/-- The event is `*context_`. -/
def isDerefContext : Event V P → Bool
  | .derefContext => true
  | _ => false

/-- The event is a function call in the engine (`func->Call`). -/
def isCall : Event V P → Bool
  | .Call _ _ _ _ => true
  | _ => false

/-- The event is an argument conversion (`ArrayToV8Args`). -/
def isArrayToV8Args : Event V P → Bool
  | .ArrayToV8Args _ _ => true
  | _ => false

/-- The event is a value conversion `AnyFromV8`. -/
def isAnyFromV8 : Event V P → Bool
  | .AnyFromV8 _ _ => true
  | _ => false

/-- The event is an error conversion `ErrorFromV8`. -/
def isErrorFromV8 : Event V P → Bool
  | .ErrorFromV8 => true
  | _ => false

/-- The event is the engine set `obj->Set(ctx, key, v)`. -/
def isSet : Event V P → Bool
  | .Set _ _ _ => true
  | _ => false

/-- The event writes the caller's `output` slot. -/
def writesOutput : Event V P → Bool
  | .AnyFromV8 _ _ => true
  | .ErrorFromV8 => true
  | .StringFromV8 _ => true
  | .setOutputType _ => true
  | _ => false

end Event

/-- The state an operation runs on. -/
structure Machine (W V P : Type) where
  /-- The engine: heap, handle registry, pending exception. -/
  world : W
  /-- The slot behind the `jsvalue* output` argument. -/
  output : jsvalue P
  /-- The calls made so far, oldest first. -/
  trace : List (Event V P)
  deriving DecidableEq, Repr

/-- How an operation ends: a normal return, or a native fault. -/
inductive Result (σ α : Type)
  | ok (a : α) (s : σ)
  | fault (f : Fault) (s : σ)
  deriving DecidableEq, Repr

namespace Result

variable {σ α : Type}

/-- The state in which the operation ended. -/
def state : Result σ α → σ
  | ok _ s => s
  | fault _ s => s

/-- The operation returned to its caller. -/
def returned : Result σ α → Bool
  | ok _ _ => true
  | fault _ _ => false

end Result

/-- An operation on the machine. -/
def Op (W V P α : Type) : Type := Machine W V P → Result (Machine W V P) α

namespace Op

variable {W V P α β : Type}

/-- Normal completion. -/
def ret (a : α) : Op W V P α := fun m => .ok a m

/-- Sequencing: a fault ends the operation. -/
def seq (x : Op W V P α) (f : α → Op W V P β) : Op W V P β := fun m =>
  match x m with
  | .ok a m1 => f a m1
  | .fault e m1 => .fault e m1

instance : Monad (Op W V P) where
  pure := ret
  bind := seq

/-- Record a call in the trace. -/
def emit (e : Event V P) : Op W V P Unit := fun m =>
  .ok () { m with trace := m.trace ++ [e] }

/-- Stop in a native fault. -/
def crash (f : Fault) : Op W V P α := fun m => .fault f m

/-- An engine call: it answers from the world, changes it, and is recorded. -/
def engine (e : Event V P) (f : W → α × W) : Op W V P α := fun m =>
  .ok (f m.world).1 { m with world := (f m.world).2, trace := m.trace ++ [e] }

/-- A codec call writing `*output`. -/
def convert (e : Event V P) (f : W → jsvalue P × W) : Op W V P Unit := fun m =>
  .ok () { world := (f m.world).2, output := (f m.world).1, trace := m.trace ++ [e] }

/-- Read the engine world (for calls that only query it). -/
def getWorld : Op W V P W := fun m => .ok m.world m

end Op

/-- The call `maybe.ToLocalChecked()`. -/
def ToLocalChecked {W V P : Type} (r : MaybeLocal V) : Op W V P V :=
  match r with
  | some v => Op.ret v
  | none => Op.crash Fault.ToLocalCheckedEmpty

/-- A member call `h->...` through a handle: the referent of `h`. -/
def deref {W V P : Type} (h : Local V) : Op W V P V :=
  match h with
  | some v => Op.ret v
  | none => Op.crash Fault.emptyHandle

/-! ## Collaborators -/

/-- The embedded engine API used by jscontext.cpp (v8.h). -/
structure V8 (W V : Type) where
  NewFromTwoByte : W → List Nat → MaybeLocal V × W
  NewFromUtf8 : W → String → MaybeLocal V × W
  /-- `Script::Compile(context, source, origin)`; `origin = none` is `nullptr`. -/
  Compile : W → Local V → Option (Local V) → MaybeLocal V × W
  Run : W → V → MaybeLocal V × W
  /-- `ctx->Global()`: the global object of the context. -/
  Global : W → V
  Get : W → V → Local V → MaybeLocal V × W
  /-- `obj->Set(ctx, key, v)`, a `Maybe<bool>`. -/
  Set : W → V → Local V → Local V → Option Bool × W
  GetPropertyNames : W → V → MaybeLocal V × W
  Call : W → V → V → Int → List (Local V) → MaybeLocal V × W
  IsFunction : V → Bool
  /-- `Null(isolate_)`. -/
  Null : W → V

/-- The engine object `engine_` (class `JsEngine`, declared in espresso.h) with the
constant `JSVALUE_TYPE_STRING_ERROR` of the same header. -/
structure JsEngine (W V P : Type) where
  v8 : V8 W V
  /-- The flag `engine_->GetIsolate() != NULL`. -/
  GetIsolate : W → Bool
  AnyFromV8 : W → Local V → Local V → jsvalue P × W
  ErrorFromV8 : W → jsvalue P × W
  StringFromV8 : W → Local V → jsvalue P × W
  AnyToV8 : W → jsvalue P → Int → Local V × W
  ArrayToV8Args : W → jsvalue P → Int → List (Local V) × W
  JSVALUE_TYPE_STRING_ERROR : Int

/-- The object `JsContext`.  `released` records whether `delete context_` has run
on the pointer `context_` (the class has no such member). -/
structure JsContext where
  id_ : Int
  released : Bool
  deriving DecidableEq, Repr

/-- A compiled script `JsScript`: the persistent behind `GetScript()`. -/
structure JsScript (V : Type) where
  GetScript : Persistent V

/-! ## Engine and codec calls as machine steps -/

section Calls

variable {W V P : Type}

/-- The call `String::NewFromTwoByte(isolate_, str)`. -/
def NewFromTwoByte (E : JsEngine W V P) (str : List Nat) : Op W V P (MaybeLocal V) :=
  Op.engine (.NewFromTwoByte str) (fun w => E.v8.NewFromTwoByte w str)

/-- The call `String::NewFromUtf8(isolate_, str)`. -/
def NewFromUtf8 (E : JsEngine W V P) (str : String) : Op W V P (MaybeLocal V) :=
  Op.engine (.NewFromUtf8 str) (fun w => E.v8.NewFromUtf8 w str)

/-- The call `Script::Compile(isolate_->GetCurrentContext(), source, origin)`. -/
def Compile (E : JsEngine W V P) (source : Local V) (origin : Option (Local V)) :
    Op W V P (MaybeLocal V) :=
  Op.engine (.Compile source origin) (fun w => E.v8.Compile w source origin)

/-- The call `script->Run(isolate_->GetCurrentContext())`. -/
def Run (E : JsEngine W V P) (script : V) : Op W V P (MaybeLocal V) :=
  Op.engine (.Run script) (fun w => E.v8.Run w script)

/-- The call `ctx->Global()`. -/
def Global (E : JsEngine W V P) : Op W V P V := fun m => .ok (E.v8.Global m.world) m

/-- The call `Null(isolate_)`. -/
def Null (E : JsEngine W V P) : Op W V P V := fun m => .ok (E.v8.Null m.world) m

/-- The call `obj->Get(ctx, key)`. -/
def Get (E : JsEngine W V P) (obj : V) (key : Local V) : Op W V P (MaybeLocal V) :=
  Op.engine (.Get obj key) (fun w => E.v8.Get w obj key)

/-- The call `obj->Set(ctx, key, v)`. -/
def Set (E : JsEngine W V P) (obj : V) (key v : Local V) : Op W V P (Option Bool) :=
  Op.engine (.Set obj key v) (fun w => E.v8.Set w obj key v)

/-- The call `obj->GetPropertyNames(ctx)`. -/
def GetPropertyNames (E : JsEngine W V P) (obj : V) : Op W V P (MaybeLocal V) :=
  Op.engine (.GetPropertyNames obj) (fun w => E.v8.GetPropertyNames w obj)

/-- The call `func->Call(ctx, recv, argc, argv)`. -/
def Call (E : JsEngine W V P) (f recv : V) (argc : Int) (argv : List (Local V)) :
    Op W V P (MaybeLocal V) :=
  Op.engine (.Call f recv argc argv) (fun w => E.v8.Call w f recv argc argv)

/-- The call `engine_->AnyFromV8(value, thisArg, output)`. -/
def AnyFromV8 (E : JsEngine W V P) (value thisArg : Local V) : Op W V P Unit :=
  Op.convert (.AnyFromV8 value thisArg) (fun w => E.AnyFromV8 w value thisArg)

/-- The call `engine_->ErrorFromV8(trycatch, output)`: the caught exception is part
of the engine world. -/
def ErrorFromV8 (E : JsEngine W V P) : Op W V P Unit :=
  Op.convert .ErrorFromV8 E.ErrorFromV8

/-- The call `engine_->StringFromV8(value, output)`. -/
def StringFromV8 (E : JsEngine W V P) (value : Local V) : Op W V P Unit :=
  Op.convert (.StringFromV8 value) (fun w => E.StringFromV8 w value)

/-- The call `engine_->AnyToV8(v, contextId)`. -/
def AnyToV8 (E : JsEngine W V P) (v : jsvalue P) (contextId : Int) : Op W V P (Local V) :=
  Op.engine (.AnyToV8 v contextId) (fun w => E.AnyToV8 w v contextId)

/-- The statement `std::vector<Local<Value>> argv(args->i32);`.  The `int32_t`
length is converted to `size_t`: a negative `args->i32` becomes a length above
`max_size()` and the constructor throws.  With `args->i32 = 0` the vector is empty
and `&argv[0]` is only passed on, never read. -/
def newArgv (args : jsvalue P) : Op W V P Unit :=
  if args.i32 < 0 then Op.crash Fault.lengthError else pure ()

/-- The call `engine_->ArrayToV8Args(args, contextId, &argv[0]);`: the vector as the
codec has filled it. -/
def ArrayToV8Args (E : JsEngine W V P) (args : jsvalue P) (contextId : Int) :
    Op W V P (List (Local V)) :=
  Op.engine (.ArrayToV8Args args contextId) (fun w => E.ArrayToV8Args w args contextId)

/-- The assignment `output->type = t`. -/
def setOutputType (t : Int) : Op W V P Unit := fun m =>
  .ok () { m with output := { m.output with type := t }, trace := m.trace ++ [.setOutputType t] }

/-- The use `*context_` / `context_->` of the member pointer: a fault once the
pointee has been deleted. -/
def useContext (self : JsContext) : Op W V P Unit := do
  Op.emit .derefContext
  if self.released then Op.crash Fault.contextReleased else pure ()

end Calls

/-! ## The operations of `JsContext` -/

section Operations

variable {W V P : Type}

/-- `JsContext::Dispose()`. -/
def Dispose (E : JsEngine W V P) (self : JsContext) : Op W V P JsContext := do
  let w ← Op.getWorld
  if E.GetIsolate w then
    Op.emit .lock
    useContext self                 -- context_->Reset();
    Op.emit .Reset
    Op.emit .delete                 -- delete context_;
    Op.emit .unlock
    pure { self with released := true }
  else
    pure self

/-- `JsContext::Execute(const uint16_t* str, const uint16_t* resourceName, jsvalue* output)`;
`resourceName = none` is `NULL`. -/
def Execute (E : JsEngine W V P) (self : JsContext) (str : List Nat)
    (resourceName : Option (List Nat)) : Op W V P Unit := do
  Op.emit .lock
  useContext self                   -- Local<Context>::New(isolate_, *context_)
  Op.emit .Enter
  Op.emit .TryCatch
  let source := (ToLocal (← NewFromTwoByte E str)).2
  let script : Local V ←
    match resourceName with
    | some rn => do
      let name := (ToLocal (← NewFromTwoByte E rn)).2
      let s ← ToLocalChecked (← Compile E source (some name))
      pure (some s)
    | none => do
      let s ← ToLocalChecked (← Compile E source none)
      pure (some s)
  match script with
  | some s =>                       -- !script.IsEmpty()
    let result := (ToLocal (← Run E s)).2
    if IsEmpty result then
      ErrorFromV8 E
    else
      AnyFromV8 E result none
  | none =>
    ErrorFromV8 E
  Op.emit .Exit
  Op.emit .unlock

/-- `JsContext::Execute(JsScript* jsscript, jsvalue* output)`. -/
def ExecuteScript (E : JsEngine W V P) (self : JsContext) (jsscript : JsScript V) :
    Op W V P Unit := do
  Op.emit .lock
  useContext self
  Op.emit .Enter
  Op.emit .TryCatch
  let script := jsscript.GetScript
  let scriptHandle : Local V := script
  if !IsEmpty script then
    let s ← deref scriptHandle
    let result := (ToLocal (← Run E s)).2
    if IsEmpty result then
      ErrorFromV8 E
    else
      AnyFromV8 E result none
  Op.emit .Exit
  Op.emit .unlock

/-- `JsContext::SetVariable(name, value, output)`. -/
def SetVariable (E : JsEngine W V P) (self : JsContext) (name : List Nat)
    (value : jsvalue P) : Op W V P Unit := do
  Op.emit .lock
  useContext self
  Op.emit .Enter
  let v ← AnyToV8 E value self.id_
  let var_name := (ToLocal (← NewFromTwoByte E name)).2
  let _ ← Set E (← Global E) var_name v
  Op.emit .Exit
  AnyFromV8 E (some (← Null E)) none
  Op.emit .unlock

/-- `JsContext::GetGlobal(output)`. -/
def GetGlobal (E : JsEngine W V P) (self : JsContext) : Op W V P Unit := do
  Op.emit .lock
  useContext self
  Op.emit .Enter
  Op.emit .TryCatch
  let value : Local V := some (← Global E)
  if !IsEmpty value then
    AnyFromV8 E value none
  else
    ErrorFromV8 E
  Op.emit .Exit
  Op.emit .unlock

/-- `JsContext::GetVariable(name, output)`. -/
def GetVariable (E : JsEngine W V P) (self : JsContext) (name : List Nat) :
    Op W V P Unit := do
  Op.emit .lock
  useContext self
  Op.emit .Enter
  Op.emit .TryCatch
  let key := (ToLocal (← NewFromTwoByte E name)).2
  let got := ToLocal (← Get E (← Global E) key)
  let value := got.2
  if got.1 && !IsEmpty value then
    AnyFromV8 E value none
  else
    ErrorFromV8 E
  Op.emit .Exit
  Op.emit .unlock

/-- `JsContext::GetPropertyNames(obj, output)`. -/
def GetPropertyNamesOf (E : JsEngine W V P) (self : JsContext) (obj : Persistent V) :
    Op W V P Unit := do
  Op.emit .lock
  useContext self
  Op.emit .Enter
  Op.emit .TryCatch
  let objLocal : Local V := obj
  let o ← deref objLocal
  let value : Local V := some (← ToLocalChecked (← GetPropertyNames E o))
  if !IsEmpty value then
    AnyFromV8 E value none
  else
    ErrorFromV8 E
  Op.emit .Exit
  Op.emit .unlock

/-- `JsContext::GetPropertyValue(obj, name, output)`. -/
def GetPropertyValue (E : JsEngine W V P) (self : JsContext) (obj : Persistent V)
    (name : List Nat) : Op W V P Unit := do
  Op.emit .lock
  useContext self
  Op.emit .Enter
  Op.emit .TryCatch
  let objLocal : Local V := obj
  let key := (ToLocal (← NewFromTwoByte E name)).2
  let o ← deref objLocal
  let got := ToLocal (← Get E o key)
  let value := got.2
  if got.1 && !IsEmpty value then
    let obj_handle : Local V := obj
    AnyFromV8 E value obj_handle
  else
    ErrorFromV8 E
  Op.emit .Exit
  Op.emit .unlock

/-- `JsContext::SetPropertyValue(obj, name, value, output)`. -/
def SetPropertyValue (E : JsEngine W V P) (self : JsContext) (obj : Persistent V)
    (name : List Nat) (value : jsvalue P) : Op W V P Unit := do
  Op.emit .lock
  useContext self
  Op.emit .Enter
  let v ← AnyToV8 E value self.id_
  let objLocal : Local V := obj
  let prop_name := (ToLocal (← NewFromTwoByte E name)).2
  let o ← deref objLocal
  let _ ← Set E o prop_name v
  Op.emit .Exit
  AnyFromV8 E (some (← Null E)) none
  Op.emit .unlock

/-- The block of `InvokeFunction` taken when `prop.IsEmpty() || !prop->IsFunction()`;
it ends in `return`, so only the destructors run after it. -/
def InvokeFunction.notFunction (E : JsEngine W V P) : Op W V P Unit := do
  let str_value := (ToLocal (← NewFromUtf8 E "isn't a function")).2
  StringFromV8 E str_value
  setOutputType E.JSVALUE_TYPE_STRING_ERROR
  Op.emit .unlock                   -- return;

/-- `JsContext::InvokeFunction(func, thisArg, args, output)`. -/
def InvokeFunction (E : JsEngine W V P) (self : JsContext) (func thisArg : Persistent V)
    (args : jsvalue P) : Op W V P Unit := do
  Op.emit .lock
  useContext self
  Op.emit .Enter
  Op.emit .TryCatch
  let prop : Local V := func
  match prop with
  | none => InvokeFunction.notFunction E             -- prop.IsEmpty()
  | some p =>
    if !E.v8.IsFunction p then InvokeFunction.notFunction E
    else
      let reciever : Local V := thisArg
      match reciever with
      | none =>                                      -- reciever.IsEmpty()
        let _reciever : Local V := some (← Global E)
        pure ()
      | some recv =>
        newArgv args
        let argv ← ArrayToV8Args E args self.id_
        let func := p
        let value : Local V := some (← ToLocalChecked (← Call E func recv args.i32 argv))
        if !IsEmpty value then
          AnyFromV8 E value none
        else
          ErrorFromV8 E
      Op.emit .Exit
      Op.emit .unlock

/-- The error block of `InvokeProperty`. -/
def InvokeProperty.notFound (E : JsEngine W V P) : Op W V P Unit := do
  let err_msg := (ToLocal (← NewFromUtf8 E "property not found or isn't a function")).2
  StringFromV8 E err_msg
  setOutputType E.JSVALUE_TYPE_STRING_ERROR

/-- The call block of `InvokeProperty`. -/
def InvokeProperty.invoke (E : JsEngine W V P) (self : JsContext) (objLocal : V)
    (prop : V) (args : jsvalue P) : Op W V P Unit := do
  newArgv args
  let argv ← ArrayToV8Args E args self.id_
  let func := prop
  let value : Local V := some (← ToLocalChecked (← Call E func objLocal args.i32 argv))
  if !IsEmpty value then
    AnyFromV8 E value none
  else
    ErrorFromV8 E

/-- `JsContext::InvokeProperty(obj, name, args, output)`.  The test is
`!objLocal->Get(ctx, key).ToLocal(&prop) || !prop.IsEmpty() || !prop->IsFunction()`,
evaluated left to right. -/
def InvokeProperty (E : JsEngine W V P) (self : JsContext) (obj : Persistent V)
    (name : List Nat) (args : jsvalue P) : Op W V P Unit := do
  Op.emit .lock
  useContext self
  Op.emit .Enter
  Op.emit .TryCatch
  let objLocal : Local V := obj
  let key := (ToLocal (← NewFromTwoByte E name)).2
  let o ← deref objLocal
  let got := ToLocal (← Get E o key)
  let prop := got.2
  if !got.1 || !IsEmpty prop then
    InvokeProperty.notFound E
  else
    let p ← deref prop              -- prop->IsFunction()
    if !E.v8.IsFunction p then
      InvokeProperty.notFound E
    else
      InvokeProperty.invoke E self o p args
  Op.emit .Exit
  Op.emit .unlock

end Operations

/-! ## Reading a result -/

section Observations

variable {W V P : Type}

/-- The world and compile result reached by the compilation of `Execute`
(lines 89-103, before `ToLocalChecked`), started in world `w`. -/
def compileResult (E : JsEngine W V P) (w : W) (str : List Nat)
    (resourceName : Option (List Nat)) : MaybeLocal V × W :=
  let source := E.v8.NewFromTwoByte w str
  match resourceName with
  | some rn =>
    let name := E.v8.NewFromTwoByte source.2 rn
    E.v8.Compile name.2 source.1 (some name.1)
  | none => E.v8.Compile source.2 source.1 none

/-- The events the compilation of `Execute` records, started in world `w`. -/
def compileEvents (E : JsEngine W V P) (w : W) (str : List Nat)
    (resourceName : Option (List Nat)) : List (Event V P) :=
  let source := E.v8.NewFromTwoByte w str
  match resourceName with
  | some rn =>
    [.NewFromTwoByte str, .NewFromTwoByte rn,
      .Compile source.1 (some (E.v8.NewFromTwoByte source.2 rn).1)]
  | none => [.NewFromTwoByte str, .Compile source.1 none]

/-- The function handle refers to a callable: it is not empty and its referent
satisfies `IsFunction()`. -/
def callable (E : JsEngine W V P) (func : Persistent V) : Bool :=
  match func with
  | some p => E.v8.IsFunction p
  | none => false

/-- The state every operation reaches on a released context: the lock is taken and
`context_` is used. -/
def releasedFault (m : Machine W V P) : Result (Machine W V P) Unit :=
  .fault .contextReleased { m with trace := m.trace ++ [.lock, .derefContext] }

/-- The number of uses of `context_` in a trace. -/
def contextUses (t : List (Event V P)) : Nat := t.countP Event.isDerefContext

/-- The fail-fast contract for an operation started on `m` that ended in `r`: the
operation returned to its caller and made no use of `context_`. -/
def failsFast (m : Machine W V P) (r : Result (Machine W V P) Unit) : Prop :=
  r.returned = true ∧ contextUses r.state.trace = contextUses m.trace

/-- The number of `ctx->Enter()` calls in a trace. -/
def enters (t : List (Event V P)) : Nat := t.countP Event.isEnter

/-- The number of `ctx->Exit()` calls in a trace. -/
def exits (t : List (Event V P)) : Nat := t.countP Event.isExit

/-- A trace extends another by as many `Enter` as `Exit` calls. -/
def paired (before after : List (Event V P)) : Prop :=
  enters after + exits before = exits after + enters before

/-- The number of writes to `*output` in a trace. -/
def outputWrites (t : List (Event V P)) : Nat := t.countP Event.writesOutput

end Observations

/-! ## A small engine for concrete runs -/

namespace Toy

/-- Engine values of the small engine. -/
inductive Val
  | undefined
  | null
  | int (n : Int)
  | string (units : List Nat)
  | utf8 (s : String)
  | script (source : List Nat)
  | object (id : Nat)
  | function (id : Nat)
  deriving DecidableEq, Repr

/-- The world of the small engine: the exception held by the active `TryCatch`. -/
structure World where
  caught : Option Val
  deriving DecidableEq, Repr

/-- The payload of a wire value of the small engine. -/
inductive Payload
  | empty
  | value (v : Val)
  | array (items : List Val)
  deriving DecidableEq, Repr

/-- UTF-16 of `1+2`. -/
def src_add : List Nat := [49, 43, 50]

/-- UTF-16 of `throw 1`. -/
def src_throw : List Nat := [116, 104, 114, 111, 119, 32, 49]

/-- UTF-16 of `var x = ;`, which does not compile. -/
def src_bad : List Nat := [118, 97, 114, 32, 120, 32, 61, 32, 59]

/-- UTF-16 of `f`. -/
def name_f : List Nat := [102]

/-- UTF-16 of `zz`, a key that no object has. -/
def name_zz : List Nat := [122, 122]

/-- UTF-16 of `a`. -/
def name_a : List Nat := [97]

/-- The script engine: it compiles `1+2` and `throw 1`; function 0 is
`function f(a,b){return a+b;}`, every other function throws; the global object
(object 0) holds function 0 as `f`; object 1 is `{a: 1, f: f}`; every property
of object 3 has a getter that throws.  A key that an object does not have yields
`undefined`, as a property read does in JavaScript. -/
def v8 : V8 World Val where
  NewFromTwoByte w str := (some (.string str), w)
  NewFromUtf8 w str := (some (.utf8 str), w)
  Compile w source _ :=
    match source with
    | some (.string units) =>
      if units = src_add ∨ units = src_throw then (some (.script units), w)
      else (none, { caught := some (.utf8 "SyntaxError") })
    | _ => (none, { caught := some (.utf8 "SyntaxError") })
  Run w script :=
    match script with
    | .script units =>
      if units = src_add then (some (.int 3), w) else (none, { caught := some (.int 1) })
    | _ => (none, w)
  Global _ := .object 0
  Get w obj key :=
    match obj, key with
    | .object 0, some (.string units) =>
      if units = name_f then (some (.function 0), w) else (some .undefined, w)
    | .object 1, some (.string units) =>
      if units = name_a then (some (.int 1), w)
      else if units = name_f then (some (.function 0), w)
      else (some .undefined, w)
    | .object 3, _ => (none, { caught := some (.utf8 "getter threw") })
    | _, _ => (some .undefined, w)
  Set w _ _ _ := (some true, w)
  GetPropertyNames w _ := (some (.object 2), w)
  Call w f _ _ argv :=
    match f, argv with
    | .function 0, [some (.int a), some (.int b)] => (some (.int (a + b)), w)
    | _, _ => (none, { caught := some (.utf8 "boom") })
  IsFunction v :=
    match v with
    | .function _ => true
    | _ => false
  Null _ := .null

/-- The codec of the small engine: tag 3 for integers, 11 for errors. -/
def engine : JsEngine World Val Payload where
  v8 := v8
  GetIsolate _ := true
  AnyFromV8 w value _ :=
    match value with
    | some (.int n) => ({ type := 3, i32 := n, rest := .empty }, w)
    | some v => ({ type := 9, i32 := 0, rest := .value v }, w)
    | none => ({ type := 0, i32 := 0, rest := .empty }, w)
  ErrorFromV8 w :=
    match w.caught with
    | some v => ({ type := 11, i32 := 0, rest := .value v }, w)
    | none => ({ type := 11, i32 := 0, rest := .empty }, w)
  StringFromV8 w value :=
    match value with
    | some v => ({ type := 5, i32 := 0, rest := .value v }, w)
    | none => ({ type := 0, i32 := 0, rest := .empty }, w)
  AnyToV8 w v _ :=
    match v.rest with
    | .value x => (some x, w)
    | _ => if v.type = 3 then (some (.int v.i32), w) else (none, w)
  ArrayToV8Args w args _ :=
    match args.rest with
    | .array items => (items.map some, w)
    | _ => ([], w)
  JSVALUE_TYPE_STRING_ERROR := 11

/-- A live context with id 7. -/
def ctx : JsContext := { id_ := 7, released := false }

/-- The machine before an operation: nothing caught, an empty output slot, no calls. -/
def start : Machine World Val Payload :=
  { world := { caught := none }, output := { type := 0, i32 := 0, rest := .empty }, trace := [] }

/-- The context `ctx` after `Dispose`. -/
def disposed : JsContext := { id_ := 7, released := true }

/-- The machine after `Dispose` of `ctx` on `start`. -/
def afterDispose : Machine World Val Payload :=
  { start with trace := [.lock, .derefContext, .Reset, .delete, .unlock] }

/-- The argument array `[2, 3]`. -/
def args23 : jsvalue Payload := { type := 10, i32 := 2, rest := .array [.int 2, .int 3] }

end Toy

/-! ## Step lemmas -/

section Steps

variable {W V P α β : Type}

@[simp] theorem Op.bind_apply (x : Op W V P α) (f : α → Op W V P β) (m : Machine W V P) :
    (x >>= f) m = match x m with
      | .ok a m1 => f a m1
      | .fault e m1 => .fault e m1 := rfl

@[simp] theorem Op.pure_apply (a : α) (m : Machine W V P) :
    (pure a : Op W V P α) m = .ok a m := rfl

@[simp] theorem Op.emit_apply (e : Event V P) (m : Machine W V P) :
    Op.emit e m = .ok () { m with trace := m.trace ++ [e] } := rfl

@[simp] theorem Op.engine_apply (e : Event V P) (f : W → α × W) (m : Machine W V P) :
    Op.engine e f m =
      .ok (f m.world).1 { m with world := (f m.world).2, trace := m.trace ++ [e] } := rfl

@[simp] theorem Op.convert_apply (e : Event V P) (f : W → jsvalue P × W) (m : Machine W V P) :
    Op.convert e f m =
      .ok () { world := (f m.world).2, output := (f m.world).1, trace := m.trace ++ [e] } := rfl

@[simp] theorem Op.crash_apply (f : Fault) (m : Machine W V P) :
    (Op.crash f : Op W V P α) m = .fault f m := rfl

@[simp] theorem Op.ret_apply (a : α) (m : Machine W V P) :
    (Op.ret a : Op W V P α) m = .ok a m := rfl

@[simp] theorem useContext_live (self : JsContext) (h : self.released = false)
    (m : Machine W V P) :
    useContext self m = .ok () { m with trace := m.trace ++ [.derefContext] } := by
  simp [useContext, h]

@[simp] theorem useContext_released (self : JsContext) (h : self.released = true)
    (m : Machine W V P) :
    useContext self m = .fault .contextReleased { m with trace := m.trace ++ [.derefContext] } := by
  simp [useContext, h]

end Steps


/-! ## `Execute` -/

section Claims

variable {W V P : Type}

/-- `Execute` on a source text that compiles: the run decides the output. -/
theorem Execute_of_compiled (E : JsEngine W V P) (self : JsContext) (str : List Nat)
    (resourceName : Option (List Nat)) (m : Machine W V P) (s : V)
    (hlive : self.released = false)
    (hcompiled : (compileResult E m.world str resourceName).1 = some s) :
    Execute E self str resourceName m = .ok ()
      (match E.v8.Run (compileResult E m.world str resourceName).2 s with
       | (none, w) =>
         { world := (E.ErrorFromV8 w).2, output := (E.ErrorFromV8 w).1,
           trace := m.trace ++ ([.lock, .derefContext, .Enter, .TryCatch]
             ++ compileEvents E m.world str resourceName
             ++ [.Run s, .ErrorFromV8, .Exit, .unlock]) }
       | (some v, w) =>
         { world := (E.AnyFromV8 w (some v) none).2, output := (E.AnyFromV8 w (some v) none).1,
           trace := m.trace ++ ([.lock, .derefContext, .Enter, .TryCatch]
             ++ compileEvents E m.world str resourceName
             ++ [.Run s, .AnyFromV8 (some v) none, .Exit, .unlock]) }) := by
  cases resourceName with
  | none =>
    simp only [compileResult] at hcompiled
    rcases hrun : E.v8.Run (E.v8.Compile (E.v8.NewFromTwoByte m.world str).2
        (E.v8.NewFromTwoByte m.world str).1 none).2 s with ⟨_ | v, w⟩ <;>
      simp [Execute, hlive, NewFromTwoByte, Compile, ToLocal, ToLocalChecked, hcompiled,
        compileResult, compileEvents, Run, IsEmpty, ErrorFromV8, AnyFromV8, hrun]
  | some rn =>
    simp only [compileResult] at hcompiled
    rcases hrun : E.v8.Run (E.v8.Compile
        (E.v8.NewFromTwoByte (E.v8.NewFromTwoByte m.world str).2 rn).2
        (E.v8.NewFromTwoByte m.world str).1
        (some (E.v8.NewFromTwoByte (E.v8.NewFromTwoByte m.world str).2 rn).1)).2 s
      with ⟨_ | v, w⟩ <;>
      simp [Execute, hlive, NewFromTwoByte, Compile, ToLocal, ToLocalChecked, hcompiled,
        compileResult, compileEvents, Run, IsEmpty, ErrorFromV8, AnyFromV8, hrun]

/-- `Execute` on a source text that does not compile: `ToLocalChecked` stops the
operation before the `script.IsEmpty()` test is reached. -/
theorem Execute_of_compile_failure (E : JsEngine W V P) (self : JsContext) (str : List Nat)
    (resourceName : Option (List Nat)) (m : Machine W V P)
    (hlive : self.released = false)
    (hfailed : (compileResult E m.world str resourceName).1 = none) :
    Execute E self str resourceName m = .fault .ToLocalCheckedEmpty
      { world := (compileResult E m.world str resourceName).2, output := m.output,
        trace := m.trace ++ ([.lock, .derefContext, .Enter, .TryCatch]
          ++ compileEvents E m.world str resourceName) } := by
  cases resourceName with
  | none =>
    simp only [compileResult] at hfailed
    simp [Execute, hlive, NewFromTwoByte, Compile, ToLocal, ToLocalChecked, hfailed,
      compileResult, compileEvents]
  | some rn =>
    simp only [compileResult] at hfailed
    simp [Execute, hlive, NewFromTwoByte, Compile, ToLocal, ToLocalChecked, hfailed,
      compileResult, compileEvents]

/-! ## `InvokeFunction` -/

/-- `InvokeFunction` on a handle that is empty or not a function: the error block,
then `return` without `ctx->Exit()`. -/
theorem InvokeFunction_of_not_callable (E : JsEngine W V P) (self : JsContext)
    (func thisArg : Persistent V) (args : jsvalue P) (m : Machine W V P)
    (hlive : self.released = false) (hfunc : callable E func = false) :
    InvokeFunction E self func thisArg args m = .ok ()
      { world := (E.StringFromV8 (E.v8.NewFromUtf8 m.world "isn't a function").2
          (E.v8.NewFromUtf8 m.world "isn't a function").1).2,
        output := { (E.StringFromV8 (E.v8.NewFromUtf8 m.world "isn't a function").2
          (E.v8.NewFromUtf8 m.world "isn't a function").1).1 with
            type := E.JSVALUE_TYPE_STRING_ERROR },
        trace := m.trace ++ [.lock, .derefContext, .Enter, .TryCatch,
          .NewFromUtf8 "isn't a function",
          .StringFromV8 (E.v8.NewFromUtf8 m.world "isn't a function").1,
          .setOutputType E.JSVALUE_TYPE_STRING_ERROR, .unlock] } := by
  cases func with
  | none =>
    simp [InvokeFunction, InvokeFunction.notFunction, hlive, NewFromUtf8, ToLocal,
      StringFromV8, setOutputType]
  | some p =>
    simp only [callable] at hfunc
    simp [InvokeFunction, InvokeFunction.notFunction, hlive, NewFromUtf8, ToLocal,
      StringFromV8, setOutputType, hfunc]

/-- `InvokeFunction` on a callable with an empty receiver: the receiver is replaced
by the global object and nothing else happens before `ctx->Exit()`. -/
theorem InvokeFunction_of_empty_receiver (E : JsEngine W V P) (self : JsContext)
    (p : V) (args : jsvalue P) (m : Machine W V P)
    (hlive : self.released = false) (hfunc : E.v8.IsFunction p = true) :
    InvokeFunction E self (some p) none args m = .ok ()
      { m with trace := m.trace ++ [.lock, .derefContext, .Enter, .TryCatch, .Exit, .unlock] } := by
  simp [InvokeFunction, hlive, hfunc, Global]

/-- `InvokeFunction` on a callable with a present receiver: the arguments are
converted, the call is made, and its result decides between the value conversion
and the fault of `ToLocalChecked`. -/
theorem InvokeFunction_of_receiver (E : JsEngine W V P) (self : JsContext)
    (p recv : V) (args : jsvalue P) (m : Machine W V P)
    (hlive : self.released = false) (hfunc : E.v8.IsFunction p = true)
    (hlen : 0 ≤ args.i32) :
    InvokeFunction E self (some p) (some recv) args m =
      (match E.v8.Call (E.ArrayToV8Args m.world args self.id_).2 p recv args.i32
          (E.ArrayToV8Args m.world args self.id_).1 with
       | (some v, w) => .ok ()
         { world := (E.AnyFromV8 w (some v) none).2, output := (E.AnyFromV8 w (some v) none).1,
           trace := m.trace ++ [.lock, .derefContext, .Enter, .TryCatch,
             .ArrayToV8Args args self.id_,
             .Call p recv args.i32 (E.ArrayToV8Args m.world args self.id_).1,
             .AnyFromV8 (some v) none, .Exit, .unlock] }
       | (none, w) => .fault .ToLocalCheckedEmpty
         { world := w, output := m.output,
           trace := m.trace ++ [.lock, .derefContext, .Enter, .TryCatch,
             .ArrayToV8Args args self.id_,
             .Call p recv args.i32 (E.ArrayToV8Args m.world args self.id_).1] }) := by
  rcases hcall : E.v8.Call (E.ArrayToV8Args m.world args self.id_).2 p recv args.i32
      (E.ArrayToV8Args m.world args self.id_).1 with ⟨_ | v, w⟩ <;>
    simp [InvokeFunction, hlive, hfunc, newArgv, Int.not_lt.mpr hlen, ArrayToV8Args, Call,
      ToLocalChecked, IsEmpty, AnyFromV8, hcall]

/-- `InvokeFunction` on a callable with a present receiver and a negative
`args->i32`: the vector constructor throws before any conversion or call, and the
operation is left without `ctx->Exit()`. -/
theorem InvokeFunction_of_negative_length (E : JsEngine W V P) (self : JsContext)
    (p recv : V) (args : jsvalue P) (m : Machine W V P)
    (hlive : self.released = false) (hfunc : E.v8.IsFunction p = true)
    (hlen : args.i32 < 0) :
    InvokeFunction E self (some p) (some recv) args m = .fault .lengthError
      { m with trace := m.trace ++ [.lock, .derefContext, .Enter, .TryCatch] } := by
  simp [InvokeFunction, hlive, hfunc, newArgv, hlen]

/-! ## `InvokeProperty` -/

/-- `InvokeProperty` on an object: whatever the lookup yields, the error block runs;
the call block is never reached. -/
theorem InvokeProperty_of_object (E : JsEngine W V P) (self : JsContext)
    (o : V) (name : List Nat) (args : jsvalue P) (m : Machine W V P)
    (hlive : self.released = false) :
    InvokeProperty E self (some o) name args m = .ok ()
      (let key := E.v8.NewFromTwoByte m.world name
       let got := E.v8.Get key.2 o key.1
       let msg := E.v8.NewFromUtf8 got.2 "property not found or isn't a function"
       let out := E.StringFromV8 msg.2 msg.1
       { world := out.2,
         output := { out.1 with type := E.JSVALUE_TYPE_STRING_ERROR },
         trace := m.trace ++ [.lock, .derefContext, .Enter, .TryCatch,
           .NewFromTwoByte name, .Get o key.1,
           .NewFromUtf8 "property not found or isn't a function",
           .StringFromV8 msg.1, .setOutputType E.JSVALUE_TYPE_STRING_ERROR,
           .Exit, .unlock] }) := by
  rcases hget : E.v8.Get (E.v8.NewFromTwoByte m.world name).2 o
      (E.v8.NewFromTwoByte m.world name).1 with ⟨_ | v, w⟩ <;>
    simp [InvokeProperty, InvokeProperty.notFound, hlive, NewFromTwoByte, deref, Get,
      ToLocal, IsEmpty, NewFromUtf8, StringFromV8, setOutputType, hget]

/-! ## Global and property access -/

/-- `SetVariable` on a live context. -/
theorem SetVariable_of_live (E : JsEngine W V P) (self : JsContext) (name : List Nat)
    (value : jsvalue P) (m : Machine W V P) (hlive : self.released = false) :
    SetVariable E self name value m = .ok ()
      (let v := E.AnyToV8 m.world value self.id_
       let key := E.v8.NewFromTwoByte v.2 name
       let set := E.v8.Set key.2 (E.v8.Global key.2) key.1 v.1
       let out := E.AnyFromV8 set.2 (some (E.v8.Null set.2)) none
       { world := out.2, output := out.1,
         trace := m.trace ++ [.lock, .derefContext, .Enter, .AnyToV8 value self.id_,
           .NewFromTwoByte name, .Set (E.v8.Global key.2) key.1 v.1, .Exit,
           .AnyFromV8 (some (E.v8.Null set.2)) none, .unlock] }) := by
  simp [SetVariable, hlive, AnyToV8, NewFromTwoByte, ToLocal, Global, Set, Null, AnyFromV8]

/-- `SetPropertyValue` on a live context and an object. -/
theorem SetPropertyValue_of_live (E : JsEngine W V P) (self : JsContext) (o : V)
    (name : List Nat) (value : jsvalue P) (m : Machine W V P)
    (hlive : self.released = false) :
    SetPropertyValue E self (some o) name value m = .ok ()
      (let v := E.AnyToV8 m.world value self.id_
       let key := E.v8.NewFromTwoByte v.2 name
       let set := E.v8.Set key.2 o key.1 v.1
       let out := E.AnyFromV8 set.2 (some (E.v8.Null set.2)) none
       { world := out.2, output := out.1,
         trace := m.trace ++ [.lock, .derefContext, .Enter, .AnyToV8 value self.id_,
           .NewFromTwoByte name, .Set o key.1 v.1, .Exit,
           .AnyFromV8 (some (E.v8.Null set.2)) none, .unlock] }) := by
  simp [SetPropertyValue, hlive, AnyToV8, NewFromTwoByte, ToLocal, deref, Set, Null,
    AnyFromV8]

/-- `GetVariable` on a live context. -/
theorem GetVariable_of_live (E : JsEngine W V P) (self : JsContext) (name : List Nat)
    (m : Machine W V P) (hlive : self.released = false) :
    GetVariable E self name m = .ok ()
      (let key := E.v8.NewFromTwoByte m.world name
       match E.v8.Get key.2 (E.v8.Global key.2) key.1 with
       | (some v, w) =>
         { world := (E.AnyFromV8 w (some v) none).2, output := (E.AnyFromV8 w (some v) none).1,
           trace := m.trace ++ [.lock, .derefContext, .Enter, .TryCatch, .NewFromTwoByte name,
             .Get (E.v8.Global key.2) key.1, .AnyFromV8 (some v) none, .Exit, .unlock] }
       | (none, w) =>
         { world := (E.ErrorFromV8 w).2, output := (E.ErrorFromV8 w).1,
           trace := m.trace ++ [.lock, .derefContext, .Enter, .TryCatch, .NewFromTwoByte name,
             .Get (E.v8.Global key.2) key.1, .ErrorFromV8, .Exit, .unlock] }) := by
  rcases hget : E.v8.Get (E.v8.NewFromTwoByte m.world name).2
      (E.v8.Global (E.v8.NewFromTwoByte m.world name).2)
      (E.v8.NewFromTwoByte m.world name).1 with ⟨_ | v, w⟩ <;>
    simp [GetVariable, hlive, NewFromTwoByte, ToLocal, Global, Get, IsEmpty, AnyFromV8,
      ErrorFromV8, hget]

/-- `GetPropertyValue` on a live context and an object. -/
theorem GetPropertyValue_of_live (E : JsEngine W V P) (self : JsContext) (o : V)
    (name : List Nat) (m : Machine W V P) (hlive : self.released = false) :
    GetPropertyValue E self (some o) name m = .ok ()
      (let key := E.v8.NewFromTwoByte m.world name
       match E.v8.Get key.2 o key.1 with
       | (some v, w) =>
         { world := (E.AnyFromV8 w (some v) (some o)).2,
           output := (E.AnyFromV8 w (some v) (some o)).1,
           trace := m.trace ++ [.lock, .derefContext, .Enter, .TryCatch, .NewFromTwoByte name,
             .Get o key.1, .AnyFromV8 (some v) (some o), .Exit, .unlock] }
       | (none, w) =>
         { world := (E.ErrorFromV8 w).2, output := (E.ErrorFromV8 w).1,
           trace := m.trace ++ [.lock, .derefContext, .Enter, .TryCatch, .NewFromTwoByte name,
             .Get o key.1, .ErrorFromV8, .Exit, .unlock] }) := by
  rcases hget : E.v8.Get (E.v8.NewFromTwoByte m.world name).2 o
      (E.v8.NewFromTwoByte m.world name).1 with ⟨_ | v, w⟩ <;>
    simp [GetPropertyValue, hlive, NewFromTwoByte, ToLocal, deref, Get, IsEmpty, AnyFromV8,
      ErrorFromV8, hget]

/-! ## Disposal -/

/-- `Dispose` on a live context whose engine still has its isolate: the context
reference is reset and deleted. -/
theorem Dispose_of_live (E : JsEngine W V P) (self : JsContext) (m : Machine W V P)
    (hlive : self.released = false) (hisolate : E.GetIsolate m.world = true) :
    Dispose E self m = .ok { self with released := true }
      { m with trace := m.trace ++ [.lock, .derefContext, .Reset, .delete, .unlock] } := by
  simp [Dispose, Op.getWorld, hisolate, hlive]

/-! ## Pairing of `Enter` and `Exit` -/

/-- `Execute` pairs `Enter` and `Exit` whenever it returns. -/
theorem Execute_paired (E : JsEngine W V P) (self : JsContext) (str : List Nat)
    (resourceName : Option (List Nat)) (m r : Machine W V P)
    (h : Execute E self str resourceName m = .ok () r) : paired m.trace r.trace := by
  cases hrel : self.released
  · cases hc : (compileResult E m.world str resourceName).1 with
    | none =>
      rw [Execute_of_compile_failure E self str resourceName m hrel hc] at h
      cases h
    | some s =>
      rw [Execute_of_compiled E self str resourceName m s hrel hc] at h
      injection h with _ h
      subst h
      rcases E.v8.Run (compileResult E m.world str resourceName).2 s with ⟨_ | v, w⟩ <;>
        cases resourceName <;>
        simp [paired, enters, exits, compileEvents, Event.isEnter, Event.isExit,
          List.countP_cons] <;> omega
  · simp [Execute, hrel] at h

/-- `ExecuteScript` pairs `Enter` and `Exit` whenever it returns. -/
theorem ExecuteScript_paired (E : JsEngine W V P) (self : JsContext) (jsscript : JsScript V)
    (m r : Machine W V P) (h : ExecuteScript E self jsscript m = .ok () r) :
    paired m.trace r.trace := by
  cases hrel : self.released
  · rcases hs : jsscript.GetScript with _ | s
    · simp [ExecuteScript, hrel, hs, IsEmpty] at h
      subst h
      simp [paired, enters, exits, Event.isEnter, Event.isExit, List.countP_cons]
      omega
    · rcases hrun : E.v8.Run m.world s with ⟨_ | v, w⟩ <;>
        simp [ExecuteScript, hrel, hs, IsEmpty, deref, Run, ToLocal, ErrorFromV8, AnyFromV8,
          hrun] at h <;> subst h <;>
        simp [paired, enters, exits, Event.isEnter, Event.isExit, List.countP_cons] <;> omega
  · simp [ExecuteScript, hrel] at h

/-- `SetVariable` pairs `Enter` and `Exit` whenever it returns. -/
theorem SetVariable_paired (E : JsEngine W V P) (self : JsContext) (name : List Nat)
    (value : jsvalue P) (m r : Machine W V P)
    (h : SetVariable E self name value m = .ok () r) : paired m.trace r.trace := by
  cases hrel : self.released
  · rw [SetVariable_of_live E self name value m hrel] at h
    injection h with _ h
    subst h
    simp [paired, enters, exits, Event.isEnter, Event.isExit, List.countP_cons]
    omega
  · simp [SetVariable, hrel] at h

/-- `GetGlobal` pairs `Enter` and `Exit` whenever it returns. -/
theorem GetGlobal_paired (E : JsEngine W V P) (self : JsContext) (m r : Machine W V P)
    (h : GetGlobal E self m = .ok () r) : paired m.trace r.trace := by
  cases hrel : self.released
  · simp [GetGlobal, hrel, Global, IsEmpty, AnyFromV8] at h
    subst h
    simp [paired, enters, exits, Event.isEnter, Event.isExit, List.countP_cons]
    omega
  · simp [GetGlobal, hrel] at h

/-- `GetVariable` pairs `Enter` and `Exit` whenever it returns. -/
theorem GetVariable_paired (E : JsEngine W V P) (self : JsContext) (name : List Nat)
    (m r : Machine W V P) (h : GetVariable E self name m = .ok () r) :
    paired m.trace r.trace := by
  cases hrel : self.released
  · rw [GetVariable_of_live E self name m hrel] at h
    injection h with _ h
    subst h
    rcases hget : E.v8.Get (E.v8.NewFromTwoByte m.world name).2
        (E.v8.Global (E.v8.NewFromTwoByte m.world name).2)
        (E.v8.NewFromTwoByte m.world name).1 with ⟨_ | v, w⟩ <;>
      simp [paired, enters, exits, Event.isEnter, Event.isExit, List.countP_cons, hget] <;>
      omega
  · simp [GetVariable, hrel] at h

/-- `GetPropertyNames` pairs `Enter` and `Exit` whenever it returns. -/
theorem GetPropertyNamesOf_paired (E : JsEngine W V P) (self : JsContext)
    (obj : Persistent V) (m r : Machine W V P)
    (h : GetPropertyNamesOf E self obj m = .ok () r) : paired m.trace r.trace := by
  cases hrel : self.released
  · cases obj with
    | none => simp [GetPropertyNamesOf, hrel, deref] at h
    | some o =>
      rcases hn : E.v8.GetPropertyNames m.world o with ⟨_ | v, w⟩ <;>
        simp [GetPropertyNamesOf, hrel, deref, GetPropertyNames, ToLocalChecked, IsEmpty,
          AnyFromV8, hn] at h
      subst h
      simp [paired, enters, exits, Event.isEnter, Event.isExit, List.countP_cons]
      omega
  · simp [GetPropertyNamesOf, hrel] at h

/-- `GetPropertyValue` pairs `Enter` and `Exit` whenever it returns. -/
theorem GetPropertyValue_paired (E : JsEngine W V P) (self : JsContext)
    (obj : Persistent V) (name : List Nat) (m r : Machine W V P)
    (h : GetPropertyValue E self obj name m = .ok () r) : paired m.trace r.trace := by
  cases hrel : self.released
  · cases obj with
    | none => simp [GetPropertyValue, hrel, deref, NewFromTwoByte] at h
    | some o =>
      rw [GetPropertyValue_of_live E self o name m hrel] at h
      injection h with _ h
      subst h
      rcases hget : E.v8.Get (E.v8.NewFromTwoByte m.world name).2 o
          (E.v8.NewFromTwoByte m.world name).1 with ⟨_ | v, w⟩ <;>
        simp [paired, enters, exits, Event.isEnter, Event.isExit, List.countP_cons, hget] <;>
        omega
  · simp [GetPropertyValue, hrel] at h

/-- `SetPropertyValue` pairs `Enter` and `Exit` whenever it returns. -/
theorem SetPropertyValue_paired (E : JsEngine W V P) (self : JsContext)
    (obj : Persistent V) (name : List Nat) (value : jsvalue P) (m r : Machine W V P)
    (h : SetPropertyValue E self obj name value m = .ok () r) : paired m.trace r.trace := by
  cases hrel : self.released
  · cases obj with
    | none => simp [SetPropertyValue, hrel, deref, NewFromTwoByte, AnyToV8] at h
    | some o =>
      rw [SetPropertyValue_of_live E self o name value m hrel] at h
      injection h with _ h
      subst h
      simp [paired, enters, exits, Event.isEnter, Event.isExit, List.countP_cons]
      omega
  · simp [SetPropertyValue, hrel] at h

/-- `InvokeProperty` pairs `Enter` and `Exit` whenever it returns. -/
theorem InvokeProperty_paired (E : JsEngine W V P) (self : JsContext)
    (obj : Persistent V) (name : List Nat) (args : jsvalue P) (m r : Machine W V P)
    (h : InvokeProperty E self obj name args m = .ok () r) : paired m.trace r.trace := by
  cases hrel : self.released
  · cases obj with
    | none => simp [InvokeProperty, hrel, deref, NewFromTwoByte] at h
    | some o =>
      rw [InvokeProperty_of_object E self o name args m hrel] at h
      injection h with _ h
      subst h
      simp [paired, enters, exits, Event.isEnter, Event.isExit, List.countP_cons]
      omega
  · simp [InvokeProperty, hrel] at h

/-- `InvokeFunction` on a callable pairs `Enter` and `Exit` whenever it returns. -/
theorem InvokeFunction_paired_of_callable (E : JsEngine W V P) (self : JsContext)
    (func thisArg : Persistent V) (args : jsvalue P) (m r : Machine W V P)
    (hfunc : callable E func = true)
    (h : InvokeFunction E self func thisArg args m = .ok () r) : paired m.trace r.trace := by
  cases hrel : self.released
  · cases func with
    | none => simp [callable] at hfunc
    | some p =>
      simp only [callable] at hfunc
      cases thisArg with
      | none =>
        rw [InvokeFunction_of_empty_receiver E self p args m hrel hfunc] at h
        injection h with _ h
        subst h
        simp [paired, enters, exits, Event.isEnter, Event.isExit, List.countP_cons]
        omega
      | some recv =>
        rcases Int.lt_or_le args.i32 0 with hneg | hlen
        · rw [InvokeFunction_of_negative_length E self p recv args m hrel hfunc hneg] at h
          cases h
        rw [InvokeFunction_of_receiver E self p recv args m hrel hfunc hlen] at h
        rcases hcall : E.v8.Call (E.ArrayToV8Args m.world args self.id_).2 p recv args.i32
            (E.ArrayToV8Args m.world args self.id_).1 with ⟨_ | v, w⟩
        · simp [hcall] at h
        · simp only [hcall] at h
          injection h with _ h
          subst h
          simp [paired, enters, exits, Event.isEnter, Event.isExit, List.countP_cons]
          omega
  · simp [InvokeFunction, hrel] at h

/-- `InvokeFunction` on a handle that is empty or not a function returns with one
`Enter` more than `Exit`. -/
theorem InvokeFunction_unpaired_of_not_callable (E : JsEngine W V P) (self : JsContext)
    (func thisArg : Persistent V) (args : jsvalue P) (m : Machine W V P)
    (hlive : self.released = false) (hfunc : callable E func = false) :
    (InvokeFunction E self func thisArg args m).returned = true ∧
    enters (InvokeFunction E self func thisArg args m).state.trace = enters m.trace + 1 ∧
    exits (InvokeFunction E self func thisArg args m).state.trace = exits m.trace := by
  rw [InvokeFunction_of_not_callable E self func thisArg args m hlive hfunc]
  simp [Result.returned, Result.state, enters, exits, Event.isEnter, Event.isExit,
    List.countP_cons]

end Claims

/-! ## The claims -/

section Outputs

variable {W V P : Type}

/-- C2: for a source text that compiles (with or without a resource name), `Execute`
returns with exactly one write to `output`; when the run yields no value the output
is the result of `ErrorFromV8` and `AnyFromV8` is not invoked, and when the run
yields `v` the output is `AnyFromV8 v` with the empty handle as owning object. -/
theorem Execute_compiled_writes_output_once (E : JsEngine W V P) (self : JsContext)
    (str : List Nat) (resourceName : Option (List Nat)) (m : Machine W V P) (s : V)
    (hlive : self.released = false)
    (hcompiled : (compileResult E m.world str resourceName).1 = some s) :
    Execute E self str resourceName m = .ok ()
      (match E.v8.Run (compileResult E m.world str resourceName).2 s with
       | (none, w) =>
         { world := (E.ErrorFromV8 w).2, output := (E.ErrorFromV8 w).1,
           trace := m.trace ++ ([.lock, .derefContext, .Enter, .TryCatch]
             ++ compileEvents E m.world str resourceName
             ++ [.Run s, .ErrorFromV8, .Exit, .unlock]) }
       | (some v, w) =>
         { world := (E.AnyFromV8 w (some v) none).2, output := (E.AnyFromV8 w (some v) none).1,
           trace := m.trace ++ ([.lock, .derefContext, .Enter, .TryCatch]
             ++ compileEvents E m.world str resourceName
             ++ [.Run s, .AnyFromV8 (some v) none, .Exit, .unlock]) }) ∧
    outputWrites (Execute E self str resourceName m).state.trace = outputWrites m.trace + 1 ∧
    List.countP Event.isAnyFromV8 (Execute E self str resourceName m).state.trace =
      List.countP Event.isAnyFromV8 m.trace +
        (if (E.v8.Run (compileResult E m.world str resourceName).2 s).1.isSome then 1 else 0) := by
  have hexec := Execute_of_compiled E self str resourceName m s hlive hcompiled
  refine ⟨hexec, ?_, ?_⟩
  · rw [hexec]
    rcases E.v8.Run (compileResult E m.world str resourceName).2 s with ⟨_ | v, w⟩ <;>
      cases resourceName <;>
      simp [Result.state, outputWrites, compileEvents, Event.writesOutput, List.countP_cons]
  · rw [hexec]
    rcases E.v8.Run (compileResult E m.world str resourceName).2 s with ⟨_ | v, w⟩ <;>
      cases resourceName <;>
      simp [Result.state, compileEvents, Event.isAnyFromV8, List.countP_cons]

/-- Witness of C2: `Execute("1+2")` on the small engine writes the integer 3. -/
theorem Execute_compiled_writes_output_once_witness :
    Toy.ctx.released = false ∧
    (compileResult Toy.engine Toy.start.world Toy.src_add none).1 = some (.script Toy.src_add) ∧
    Execute Toy.engine Toy.ctx Toy.src_add none Toy.start = .ok ()
      { world := { caught := none },
        output := { type := 3, i32 := 3, rest := .empty },
        trace := [.lock, .derefContext, .Enter, .TryCatch, .NewFromTwoByte Toy.src_add,
          .Compile (some (.string Toy.src_add)) none, .Run (.script Toy.src_add),
          .AnyFromV8 (some (.int 3)) none, .Exit, .unlock] } :=
  ⟨rfl, rfl, (Execute_compiled_writes_output_once Toy.engine Toy.ctx Toy.src_add none
    Toy.start (.script Toy.src_add) rfl rfl).1⟩

/-- C8: for a function handle that is empty or does not refer to a callable, and any
receiver and arguments, `InvokeFunction` makes no engine call of a function and no
argument conversion, and leaves in `output` the result of `StringFromV8` on the
engine string "isn't a function", retagged `JSVALUE_TYPE_STRING_ERROR`. -/
theorem InvokeFunction_rejects_non_callable (E : JsEngine W V P) (self : JsContext)
    (func thisArg : Persistent V) (args : jsvalue P) (m : Machine W V P)
    (hlive : self.released = false) (hfunc : callable E func = false) :
    InvokeFunction E self func thisArg args m = .ok ()
      { world := (E.StringFromV8 (E.v8.NewFromUtf8 m.world "isn't a function").2
          (E.v8.NewFromUtf8 m.world "isn't a function").1).2,
        output := { (E.StringFromV8 (E.v8.NewFromUtf8 m.world "isn't a function").2
          (E.v8.NewFromUtf8 m.world "isn't a function").1).1 with
            type := E.JSVALUE_TYPE_STRING_ERROR },
        trace := m.trace ++ [.lock, .derefContext, .Enter, .TryCatch,
          .NewFromUtf8 "isn't a function",
          .StringFromV8 (E.v8.NewFromUtf8 m.world "isn't a function").1,
          .setOutputType E.JSVALUE_TYPE_STRING_ERROR, .unlock] } ∧
    (InvokeFunction E self func thisArg args m).state.output.type
      = E.JSVALUE_TYPE_STRING_ERROR ∧
    List.countP Event.isCall (InvokeFunction E self func thisArg args m).state.trace
      = List.countP Event.isCall m.trace ∧
    List.countP Event.isArrayToV8Args (InvokeFunction E self func thisArg args m).state.trace
      = List.countP Event.isArrayToV8Args m.trace := by
  have hinv := InvokeFunction_of_not_callable E self func thisArg args m hlive hfunc
  refine ⟨hinv, ?_, ?_, ?_⟩ <;> rw [hinv] <;>
    simp [Result.state, Event.isCall, Event.isArrayToV8Args, List.countP_cons]

/-- Witness of C8: on the small engine, invoking object 1 (not a function) with
receiver object 0 and arguments `[2, 3]`. -/
theorem InvokeFunction_rejects_non_callable_witness :
    Toy.ctx.released = false ∧
    callable Toy.engine (some (.object 1)) = false ∧
    InvokeFunction Toy.engine Toy.ctx (some (.object 1)) (some (.object 0)) Toy.args23
        Toy.start = .ok ()
      { world := { caught := none },
        output := { type := 11, i32 := 0, rest := .value (.utf8 "isn't a function") },
        trace := [.lock, .derefContext, .Enter, .TryCatch, .NewFromUtf8 "isn't a function",
          .StringFromV8 (some (.utf8 "isn't a function")), .setOutputType 11, .unlock] } :=
  ⟨rfl, rfl, (InvokeFunction_rejects_non_callable Toy.engine Toy.ctx (some (.object 1))
    (some (.object 0)) Toy.args23 Toy.start rfl rfl).1⟩

/-- C9: for every name and wire value, `SetVariable` (on the global object) and
`SetPropertyValue` (on the given object) convert the value with the context's own
id, make the engine set exactly once, and leave in `output` the conversion of the
engine's null value; the flag returned by the set is not read, so a failed set
never produces an error output. -/
theorem SetVariable_SetPropertyValue_output_null (E : JsEngine W V P) (self : JsContext)
    (o : V) (name : List Nat) (value : jsvalue P) (m : Machine W V P)
    (hlive : self.released = false) :
    (SetVariable E self name value m = .ok ()
      (let v := E.AnyToV8 m.world value self.id_
       let key := E.v8.NewFromTwoByte v.2 name
       let set := E.v8.Set key.2 (E.v8.Global key.2) key.1 v.1
       let out := E.AnyFromV8 set.2 (some (E.v8.Null set.2)) none
       { world := out.2, output := out.1,
         trace := m.trace ++ [.lock, .derefContext, .Enter, .AnyToV8 value self.id_,
           .NewFromTwoByte name, .Set (E.v8.Global key.2) key.1 v.1, .Exit,
           .AnyFromV8 (some (E.v8.Null set.2)) none, .unlock] })) ∧
    (SetPropertyValue E self (some o) name value m = .ok ()
      (let v := E.AnyToV8 m.world value self.id_
       let key := E.v8.NewFromTwoByte v.2 name
       let set := E.v8.Set key.2 o key.1 v.1
       let out := E.AnyFromV8 set.2 (some (E.v8.Null set.2)) none
       { world := out.2, output := out.1,
         trace := m.trace ++ [.lock, .derefContext, .Enter, .AnyToV8 value self.id_,
           .NewFromTwoByte name, .Set o key.1 v.1, .Exit,
           .AnyFromV8 (some (E.v8.Null set.2)) none, .unlock] })) ∧
    List.countP Event.isSet (SetVariable E self name value m).state.trace
      = List.countP Event.isSet m.trace + 1 ∧
    List.countP Event.isSet (SetPropertyValue E self (some o) name value m).state.trace
      = List.countP Event.isSet m.trace + 1 ∧
    List.countP Event.isErrorFromV8 (SetVariable E self name value m).state.trace
      = List.countP Event.isErrorFromV8 m.trace ∧
    List.countP Event.isErrorFromV8 (SetPropertyValue E self (some o) name value m).state.trace
      = List.countP Event.isErrorFromV8 m.trace := by
  have hvar := SetVariable_of_live E self name value m hlive
  have hprop := SetPropertyValue_of_live E self o name value m hlive
  refine ⟨hvar, hprop, ?_, ?_, ?_, ?_⟩
  · rw [hvar]; simp [Result.state, Event.isSet, List.countP_cons]
  · rw [hprop]; simp [Result.state, Event.isSet, List.countP_cons]
  · rw [hvar]; simp [Result.state, Event.isErrorFromV8, List.countP_cons]
  · rw [hprop]; simp [Result.state, Event.isErrorFromV8, List.countP_cons]

/-- Witness of C9: on the small engine, setting `f` to the integer wire value 5 on
the global object and on object 1 leaves the conversion of null in `output`. -/
theorem SetVariable_SetPropertyValue_output_null_witness :
    Toy.ctx.released = false ∧
    SetVariable Toy.engine Toy.ctx Toy.name_f { type := 3, i32 := 5, rest := .empty }
        Toy.start = .ok ()
      { world := { caught := none },
        output := { type := 9, i32 := 0, rest := .value .null },
        trace := [.lock, .derefContext, .Enter,
          .AnyToV8 { type := 3, i32 := 5, rest := .empty } 7, .NewFromTwoByte Toy.name_f,
          .Set (.object 0) (some (.string Toy.name_f)) (some (.int 5)), .Exit,
          .AnyFromV8 (some .null) none, .unlock] } ∧
    SetPropertyValue Toy.engine Toy.ctx (some (.object 1)) Toy.name_f
        { type := 3, i32 := 5, rest := .empty } Toy.start = .ok ()
      { world := { caught := none },
        output := { type := 9, i32 := 0, rest := .value .null },
        trace := [.lock, .derefContext, .Enter,
          .AnyToV8 { type := 3, i32 := 5, rest := .empty } 7, .NewFromTwoByte Toy.name_f,
          .Set (.object 1) (some (.string Toy.name_f)) (some (.int 5)), .Exit,
          .AnyFromV8 (some .null) none, .unlock] } :=
  ⟨rfl,
    (SetVariable_SetPropertyValue_output_null Toy.engine Toy.ctx (.object 1) Toy.name_f
      { type := 3, i32 := 5, rest := .empty } Toy.start rfl).1,
    (SetVariable_SetPropertyValue_output_null Toy.engine Toy.ctx (.object 1) Toy.name_f
      { type := 3, i32 := 5, rest := .empty } Toy.start rfl).2.1⟩

/-- C10, as the code has it: for every name, `GetVariable` leaves in `output` the
result of `ErrorFromV8` on the current exception state exactly when the engine's
lookup on the global object yields no value (an empty result), and otherwise
`AnyFromV8` of the value the lookup yields, whatever that value is (`undefined`
included), with the empty handle as owning object; `GetPropertyValue` does the same
on the given object, converting the value with that object as owning object. -/
theorem GetVariable_GetPropertyValue_output (E : JsEngine W V P) (self : JsContext)
    (o : V) (name : List Nat) (m : Machine W V P) (hlive : self.released = false) :
    (GetVariable E self name m = .ok ()
      (let key := E.v8.NewFromTwoByte m.world name
       match E.v8.Get key.2 (E.v8.Global key.2) key.1 with
       | (some v, w) =>
         { world := (E.AnyFromV8 w (some v) none).2, output := (E.AnyFromV8 w (some v) none).1,
           trace := m.trace ++ [.lock, .derefContext, .Enter, .TryCatch, .NewFromTwoByte name,
             .Get (E.v8.Global key.2) key.1, .AnyFromV8 (some v) none, .Exit, .unlock] }
       | (none, w) =>
         { world := (E.ErrorFromV8 w).2, output := (E.ErrorFromV8 w).1,
           trace := m.trace ++ [.lock, .derefContext, .Enter, .TryCatch, .NewFromTwoByte name,
             .Get (E.v8.Global key.2) key.1, .ErrorFromV8, .Exit, .unlock] })) ∧
    (GetPropertyValue E self (some o) name m = .ok ()
      (let key := E.v8.NewFromTwoByte m.world name
       match E.v8.Get key.2 o key.1 with
       | (some v, w) =>
         { world := (E.AnyFromV8 w (some v) (some o)).2,
           output := (E.AnyFromV8 w (some v) (some o)).1,
           trace := m.trace ++ [.lock, .derefContext, .Enter, .TryCatch, .NewFromTwoByte name,
             .Get o key.1, .AnyFromV8 (some v) (some o), .Exit, .unlock] }
       | (none, w) =>
         { world := (E.ErrorFromV8 w).2, output := (E.ErrorFromV8 w).1,
           trace := m.trace ++ [.lock, .derefContext, .Enter, .TryCatch, .NewFromTwoByte name,
             .Get o key.1, .ErrorFromV8, .Exit, .unlock] })) ∧
    List.countP Event.isErrorFromV8 (GetVariable E self name m).state.trace =
      List.countP Event.isErrorFromV8 m.trace +
        (if (E.v8.Get (E.v8.NewFromTwoByte m.world name).2
            (E.v8.Global (E.v8.NewFromTwoByte m.world name).2)
            (E.v8.NewFromTwoByte m.world name).1).1.isSome then 0 else 1) ∧
    List.countP Event.isErrorFromV8 (GetPropertyValue E self (some o) name m).state.trace =
      List.countP Event.isErrorFromV8 m.trace +
        (if (E.v8.Get (E.v8.NewFromTwoByte m.world name).2 o
            (E.v8.NewFromTwoByte m.world name).1).1.isSome then 0 else 1) := by
  have hvar := GetVariable_of_live E self name m hlive
  have hprop := GetPropertyValue_of_live E self o name m hlive
  refine ⟨hvar, hprop, ?_, ?_⟩
  · rw [hvar]
    rcases hget : E.v8.Get (E.v8.NewFromTwoByte m.world name).2
        (E.v8.Global (E.v8.NewFromTwoByte m.world name).2)
        (E.v8.NewFromTwoByte m.world name).1 with ⟨_ | v, w⟩ <;>
      simp [Result.state, Event.isErrorFromV8, List.countP_cons, hget]
  · rw [hprop]
    rcases hget : E.v8.Get (E.v8.NewFromTwoByte m.world name).2 o
        (E.v8.NewFromTwoByte m.world name).1 with ⟨_ | v, w⟩ <;>
      simp [Result.state, Event.isErrorFromV8, List.countP_cons, hget]

/-- Witness of C10 as amended: on the small engine, reading the global `f`, the property `a` of
object 1 (the integer 1) and a property of object 3, whose getter throws. -/
theorem GetVariable_GetPropertyValue_output_witness :
    Toy.ctx.released = false ∧
    GetVariable Toy.engine Toy.ctx Toy.name_f Toy.start = .ok ()
      { world := { caught := none },
        output := { type := 9, i32 := 0, rest := .value (.function 0) },
        trace := [.lock, .derefContext, .Enter, .TryCatch, .NewFromTwoByte Toy.name_f,
          .Get (.object 0) (some (.string Toy.name_f)), .AnyFromV8 (some (.function 0)) none,
          .Exit, .unlock] } ∧
    GetPropertyValue Toy.engine Toy.ctx (some (.object 1)) Toy.name_a Toy.start = .ok ()
      { world := { caught := none },
        output := { type := 3, i32 := 1, rest := .empty },
        trace := [.lock, .derefContext, .Enter, .TryCatch, .NewFromTwoByte Toy.name_a,
          .Get (.object 1) (some (.string Toy.name_a)),
          .AnyFromV8 (some (.int 1)) (some (.object 1)), .Exit, .unlock] } ∧
    GetPropertyValue Toy.engine Toy.ctx (some (.object 3)) Toy.name_a Toy.start = .ok ()
      { world := { caught := some (.utf8 "getter threw") },
        output := { type := 11, i32 := 0, rest := .value (.utf8 "getter threw") },
        trace := [.lock, .derefContext, .Enter, .TryCatch, .NewFromTwoByte Toy.name_a,
          .Get (.object 3) (some (.string Toy.name_a)), .ErrorFromV8, .Exit, .unlock] } :=
  ⟨rfl,
    (GetVariable_GetPropertyValue_output Toy.engine Toy.ctx (.object 1) Toy.name_f
      Toy.start rfl).1,
    (GetVariable_GetPropertyValue_output Toy.engine Toy.ctx (.object 1) Toy.name_a
      Toy.start rfl).2.1,
    (GetVariable_GetPropertyValue_output Toy.engine Toy.ctx (.object 3) Toy.name_a
      Toy.start rfl).2.1⟩

/-- C10 fails as stated: on the small engine the global object has no property `a`
and object 1 has no property `zz`; the engine's lookup yields `undefined`, and
`GetVariable` and `GetPropertyValue` leave the conversion of `undefined` in
`output`, not the result of `ErrorFromV8`, which is never called. -/
theorem GetVariable_missing_property_not_error :
    Toy.engine.v8.Get Toy.start.world (.object 0) (some (.string Toy.name_a))
      = (some .undefined, Toy.start.world) ∧
    GetVariable Toy.engine Toy.ctx Toy.name_a Toy.start = .ok ()
      { world := { caught := none },
        output := { type := 9, i32 := 0, rest := .value .undefined },
        trace := [.lock, .derefContext, .Enter, .TryCatch, .NewFromTwoByte Toy.name_a,
          .Get (.object 0) (some (.string Toy.name_a)), .AnyFromV8 (some .undefined) none,
          .Exit, .unlock] } ∧
    (GetVariable Toy.engine Toy.ctx Toy.name_a Toy.start).state.output
      ≠ (Toy.engine.ErrorFromV8 Toy.start.world).1 ∧
    List.countP Event.isErrorFromV8
      (GetVariable Toy.engine Toy.ctx Toy.name_a Toy.start).state.trace = 0 ∧
    Toy.engine.v8.Get Toy.start.world (.object 1) (some (.string Toy.name_zz))
      = (some .undefined, Toy.start.world) ∧
    GetPropertyValue Toy.engine Toy.ctx (some (.object 1)) Toy.name_zz Toy.start = .ok ()
      { world := { caught := none },
        output := { type := 9, i32 := 0, rest := .value .undefined },
        trace := [.lock, .derefContext, .Enter, .TryCatch, .NewFromTwoByte Toy.name_zz,
          .Get (.object 1) (some (.string Toy.name_zz)),
          .AnyFromV8 (some .undefined) (some (.object 1)), .Exit, .unlock] } ∧
    (GetPropertyValue Toy.engine Toy.ctx (some (.object 1)) Toy.name_zz Toy.start).state.output
      ≠ (Toy.engine.ErrorFromV8 Toy.start.world).1 ∧
    List.countP Event.isErrorFromV8
      (GetPropertyValue Toy.engine Toy.ctx (some (.object 1)) Toy.name_zz
        Toy.start).state.trace = 0 := by
  decide

end Outputs

section Disposal

variable {W V P : Type}

/-- C7, as the code has it: `Dispose` on a live context whose engine has its isolate
resets and deletes the context reference, and keeps no disposed state that an
operation could test; every operation on the context afterwards takes the lock and
uses the released context reference as its first step, a native fault that comes
before any `Enter`, engine call or write to `output`. -/
theorem operations_after_Dispose_use_released_context (E : JsEngine W V P)
    (self : JsContext) (m0 : Machine W V P)
    (hlive : self.released = false) (hisolate : E.GetIsolate m0.world = true) :
    Dispose E self m0 = .ok { self with released := true }
      { m0 with trace := m0.trace ++ [.lock, .derefContext, .Reset, .delete, .unlock] } ∧
    ∀ (m : Machine W V P) (str name : List Nat) (resourceName : Option (List Nat))
      (jsscript : JsScript V) (value args : jsvalue P) (obj func thisArg : Persistent V),
      Execute E { self with released := true } str resourceName m = releasedFault m ∧
      ExecuteScript E { self with released := true } jsscript m = releasedFault m ∧
      SetVariable E { self with released := true } name value m = releasedFault m ∧
      GetGlobal E { self with released := true } m = releasedFault m ∧
      GetVariable E { self with released := true } name m = releasedFault m ∧
      GetPropertyNamesOf E { self with released := true } obj m = releasedFault m ∧
      GetPropertyValue E { self with released := true } obj name m = releasedFault m ∧
      SetPropertyValue E { self with released := true } obj name value m = releasedFault m ∧
      InvokeFunction E { self with released := true } func thisArg args m = releasedFault m ∧
      InvokeProperty E { self with released := true } obj name args m = releasedFault m := by
  refine ⟨Dispose_of_live E self m0 hlive hisolate, ?_⟩
  intro m str name resourceName jsscript value args obj func thisArg
  refine ⟨?_, ?_, ?_, ?_, ?_, ?_, ?_, ?_, ?_, ?_⟩
  · simp [Execute, releasedFault]
  · simp [ExecuteScript, releasedFault]
  · simp [SetVariable, releasedFault]
  · simp [GetGlobal, releasedFault]
  · simp [GetVariable, releasedFault]
  · simp [GetPropertyNamesOf, releasedFault]
  · simp [GetPropertyValue, releasedFault]
  · simp [SetPropertyValue, releasedFault]
  · simp [InvokeFunction, releasedFault]
  · simp [InvokeProperty, releasedFault]

/-- Witness of C7 as amended: on the small engine, `Dispose` of the live context and
`GetVariable` on the disposed one. -/
theorem operations_after_Dispose_use_released_context_witness :
    Toy.ctx.released = false ∧ Toy.engine.GetIsolate Toy.start.world = true ∧
    Dispose Toy.engine Toy.ctx Toy.start = .ok Toy.disposed Toy.afterDispose ∧
    GetVariable Toy.engine Toy.disposed Toy.name_f Toy.afterDispose =
      .fault .contextReleased
        { Toy.afterDispose with trace := Toy.afterDispose.trace ++ [.lock, .derefContext] } :=
  ⟨rfl, rfl,
    (operations_after_Dispose_use_released_context Toy.engine Toy.ctx Toy.start rfl rfl).1,
    ((operations_after_Dispose_use_released_context Toy.engine Toy.ctx Toy.start rfl rfl).2
      Toy.afterDispose [] Toy.name_f none ⟨none⟩ Toy.args23 Toy.args23 none none none).2.2.2.2.1⟩

/-- C7 fails as stated: on the small engine, `Execute` on the context that `Dispose`
has released does not fail fast; it uses the released context reference and ends
in a native fault. -/
theorem Execute_after_Dispose_not_fail_fast :
    Dispose Toy.engine Toy.ctx Toy.start = .ok Toy.disposed Toy.afterDispose ∧
    Execute Toy.engine Toy.disposed Toy.src_add none Toy.afterDispose =
      .fault .contextReleased
        { world := { caught := none }, output := { type := 0, i32 := 0, rest := .empty },
          trace := [.lock, .derefContext, .Reset, .delete, .unlock, .lock, .derefContext] } ∧
    contextUses (Execute Toy.engine Toy.disposed Toy.src_add none Toy.afterDispose).state.trace
      = contextUses Toy.afterDispose.trace + 1 ∧
    ¬ failsFast Toy.afterDispose
        (Execute Toy.engine Toy.disposed Toy.src_add none Toy.afterDispose) := by
  refine ⟨rfl, rfl, rfl, ?_⟩
  intro h
  exact absurd h.1 (by decide)

end Disposal

/-! ## Runs that depart from the specification -/

section Departures

/-- C1 at a failing input: on the small engine, `Execute` of `var x = ;`, without and
with a resource name, does not return; `ToLocalChecked` on the empty compile result
ends the operation in a native fault, `output` is not written and `ErrorFromV8` is
not called. -/
theorem Execute_compile_failure_crashes :
    Execute Toy.engine Toy.ctx Toy.src_bad none Toy.start =
      .fault .ToLocalCheckedEmpty
        { world := { caught := some (.utf8 "SyntaxError") },
          output := Toy.start.output,
          trace := [.lock, .derefContext, .Enter, .TryCatch, .NewFromTwoByte Toy.src_bad,
            .Compile (some (.string Toy.src_bad)) none] } ∧
    Execute Toy.engine Toy.ctx Toy.src_bad (some Toy.name_f) Toy.start =
      .fault .ToLocalCheckedEmpty
        { world := { caught := some (.utf8 "SyntaxError") },
          output := Toy.start.output,
          trace := [.lock, .derefContext, .Enter, .TryCatch, .NewFromTwoByte Toy.src_bad,
            .NewFromTwoByte Toy.name_f,
            .Compile (some (.string Toy.src_bad)) (some (some (.string Toy.name_f)))] } := by
  decide

/-- C3 at a failing input: on the small engine, `InvokeFunction` of
`function f(a,b){return a+b;}` with an empty `thisArg` and arguments `[2, 3]` returns
without calling the function, converting the arguments or writing `output`. -/
theorem InvokeFunction_empty_receiver_makes_no_call :
    callable Toy.engine (some (.function 0)) = true ∧
    InvokeFunction Toy.engine Toy.ctx (some (.function 0)) none Toy.args23 Toy.start =
      .ok ()
        { world := Toy.start.world, output := Toy.start.output,
          trace := [.lock, .derefContext, .Enter, .TryCatch, .Exit, .unlock] } := by
  decide

/-- C4 at a failing input: on the small engine, `InvokeProperty` of the callable
property `f` of object 1 with arguments `[2, 3]` does not call it; the output is the
"property not found or isn't a function" error. -/
theorem InvokeProperty_callable_property_not_called :
    Toy.engine.v8.Get Toy.start.world (.object 1) (some (.string Toy.name_f))
      = (some (.function 0), Toy.start.world) ∧
    Toy.engine.v8.IsFunction (.function 0) = true ∧
    InvokeProperty Toy.engine Toy.ctx (some (.object 1)) Toy.name_f Toy.args23 Toy.start =
      .ok ()
        { world := { caught := none },
          output :=
            { type := 11, i32 := 0,
              rest := .value (.utf8 "property not found or isn't a function") },
          trace := [.lock, .derefContext, .Enter, .TryCatch, .NewFromTwoByte Toy.name_f,
            .Get (.object 1) (some (.string Toy.name_f)),
            .NewFromUtf8 "property not found or isn't a function",
            .StringFromV8 (some (.utf8 "property not found or isn't a function")),
            .setOutputType 11, .Exit, .unlock] } := by
  decide

/-- C5 at a failing input: on the small engine, `InvokeFunction` of a function that
throws, with receiver object 0 and arguments `[2, 3]`, does not return;
`ToLocalChecked` on the empty call result ends the operation in a native fault and
`ErrorFromV8` is not called. -/
theorem InvokeFunction_throwing_call_crashes :
    callable Toy.engine (some (.function 1)) = true ∧
    InvokeFunction Toy.engine Toy.ctx (some (.function 1)) (some (.object 0)) Toy.args23
        Toy.start =
      .fault .ToLocalCheckedEmpty
        { world := { caught := some (.utf8 "boom") },
          output := Toy.start.output,
          trace := [.lock, .derefContext, .Enter, .TryCatch, .ArrayToV8Args Toy.args23 7,
            .Call (.function 1) (.object 0) 2 [some (.int 2), some (.int 3)]] } := by
  decide

/-- C6 at a failing input: on the small engine, `InvokeFunction` on a handle that is
not a function returns to its caller with one `ctx->Enter()` and no `ctx->Exit()`. -/
theorem InvokeFunction_non_callable_skips_Exit :
    (InvokeFunction Toy.engine Toy.ctx (some (.object 1)) none Toy.args23
        Toy.start).returned = true ∧
    enters (InvokeFunction Toy.engine Toy.ctx (some (.object 1)) none Toy.args23
        Toy.start).state.trace = 1 ∧
    exits (InvokeFunction Toy.engine Toy.ctx (some (.object 1)) none Toy.args23
        Toy.start).state.trace = 0 := by
  decide

end Departures

end Espresso
